import Mathlib

/-!
Shallow embedding of the edge-cloud synchronization backend:
the SQLAlchemy models (`models.py`), the sync router (`routers/sync.py`),
the operator router (`routers/operators.py`) and the MQTT publish client
(`mqtt_client.py`).

Modelling conventions:
* `datetime` values are natural numbers (seconds); ISO-8601 timestamp strings
  are abstracted by their parse outcome (`TsStr.valid t` parses to `t`,
  `TsStr.malformed` makes `datetime.fromisoformat` raise `ValueError`).
* Python exceptions are `Except PyError`; an `Except.error` escaping a request
  handler is an HTTP 500 and, because `db.commit()` is then never reached and
  the request-scoped session is closed, leaves the persisted store unchanged.
* The SQLAlchemy declarative constructor rejects keyword arguments that are
  not mapped attributes (`TypeError`), reading an unmapped attribute from a
  freshly loaded instance raises `AttributeError`, and a bulk
  `Query.update` whose dictionary contains an unmapped column name raises at
  execution.  These checks are computed from the literal column-name lists
  copied from `models.py`.
* Auto-increment surrogate primary keys (`id` columns) are omitted from the
  row structures: no logic under scrutiny reads them.  Binary face-image
  content is carried as `String`; base64 text is represented by the bytes it
  encodes (the codec is a bijection and no claim depends on its spelling).
* Within one request handler every `datetime.now()` call returns the single
  parameter `now`.
-/

namespace Backend

/-- An ISO-8601 timestamp string, abstracted by its parse outcome. -/
inductive TsStr
  | valid (t : Nat)
  | malformed
deriving DecidableEq, Repr

/-- The Python exceptions that the embedded handlers can raise. -/
inductive PyError
  | typeError (kw : String)
  | valueError
  | attributeError (name : String)
  | unconsumedColumn (name : String)
  | httpNotFound
deriving DecidableEq, Repr

/-- `datetime.fromisoformat`: parses a valid string, raises `ValueError` on a
malformed one. -/
def fromisoformat : TsStr → Except PyError Nat
  | .valid t => .ok t
  | .malformed => .error .valueError

/-- The instant `datetime(2000, 1, 1)` (equally the parse of the
default string `"2000-01-01T00:00:00"`), as Unix seconds. -/
def dt2000 : Nat := 946684800

/-- Base64 text on the wire, abstracted by its decode outcome. -/
inductive B64Str
  | valid (bytes : String)
  | malformed
deriving DecidableEq, Repr

/-- `base64.b64decode`: yields the encoded bytes, raises on malformed text. -/
def b64decode : B64Str → Except PyError String
  | .valid bytes => .ok bytes
  | .malformed => .error .valueError

/-- Mapped attribute names of `models.Operator` (`models.py`, class
`Operator`).  Note the absence of `deleted` and `deleted_at`. -/
def operatorColumns : List String :=
  ["id", "name", "operator_id", "machine_no", "shift", "status",
   "face_image_path", "created_at", "synced_to_cloud", "cloud_updated_at"]

/-- Mapped attribute names of `models.LoginLog`.  Again no `deleted`,
no `deleted_at`. -/
def loginLogColumns : List String :=
  ["id", "operator_id", "login_time", "logout_time", "shift", "date",
   "created_at", "synced_to_cloud", "synced_at"]

/-- Mapped attribute names of `models.Admin`. -/
def adminColumns : List String :=
  ["id", "username", "hashed_password", "created_at"]

/-- The SQLAlchemy declarative `__init__`: accepts the instance `row` that the
keyword arguments would build, but raises `TypeError` as soon as one keyword
is not a mapped attribute of the class. -/
def declarativeInit (columns kwargs : List String) (row : α) : Except PyError α :=
  match kwargs.find? (fun k => !columns.contains k) with
  | some k => .error (.typeError k)
  | none => .ok row

/-- Reading attribute `name` on a freshly loaded instance (or on the mapped
class, when building a filter criterion): succeeds only for mapped
attributes, otherwise `AttributeError`. -/
def attributeGet (columns : List String) (name : String) : Except PyError Unit :=
  if columns.contains name then .ok () else .error (.attributeError name)

/-- Bulk `Query.update({...})`: every dictionary key must name a mapped
column, otherwise the statement raises at execution. -/
def queryUpdateKeysCheck (columns keys : List String) : Except PyError Unit :=
  match keys.find? (fun k => !columns.contains k) with
  | some k => .error (.unconsumedColumn k)
  | none => .ok ()

/-- A persisted row of the `operators` table. -/
structure OperatorRow where
  name : String
  operator_id : String
  machine_no : String
  shift : Option String
  status : String
  face_image_path : Option String
  created_at : Nat
  synced_to_cloud : Bool
  cloud_updated_at : Option Nat
deriving DecidableEq, Repr

/-- A persisted row of the `login_logs` table. -/
structure LogRow where
  operator_id : String
  login_time : Nat
  logout_time : Option Nat
  shift : String
  date : String
  created_at : Nat
  synced_to_cloud : Bool
  synced_at : Option Nat
deriving DecidableEq, Repr

/-- A persisted row of the `admins` table. -/
structure AdminRow where
  username : String
  hashed_password : String
  created_at : Nat
deriving DecidableEq, Repr

/-- The relational store (one peer's database). -/
structure Store where
  operators : List OperatorRow
  login_logs : List LogRow
  admins : List AdminRow
deriving DecidableEq, Repr

/-- Mutating the single instance returned by `query(...).first()`: rewrite the
first row satisfying `p`, leave the rest alone. -/
def updateFirst (p : α → Bool) (f : α → α) : List α → List α
  | [] => []
  | x :: xs => if p x then f x :: xs else x :: updateFirst p f xs

/-- The filename `f"{operator_id}_{now:%Y%m%d_%H%M%S}.jpg"` under the upload
directory. -/
def imageFilename (operator_id : String) (now : Nat) : String :=
  operator_id ++ "_" ++ toString now ++ ".jpg"

/-- An operator item of a `POST /api/sync/all` body.  `status` defaults to
`"Offline"` via `.get('status', 'Offline')`; `created_at` defaults to
`"2000-01-01T00:00:00"` via `.get('created_at', ...)`; `cloud_updated_at` is
present on the wire (the GET handler emits it) but `receive_all_data` never
reads it. -/
structure OperatorItem where
  operator_id : String
  name : String
  machine_no : String
  shift : Option String
  status : Option String
  face_image_b64 : Option B64Str
  created_at : Option TsStr
  cloud_updated_at : Option TsStr
  deleted : Option Bool
  deleted_at : Option TsStr
deriving DecidableEq, Repr

/-- A login-log item of a `POST /api/sync/all` body. -/
structure LogItem where
  operator_id : String
  login_time : TsStr
  logout_time : Option TsStr
  shift : String
  date : String
  deleted : Option Bool
  deleted_at : Option TsStr
deriving DecidableEq, Repr

/-- An admin item of a `POST /api/sync/all` body. -/
structure AdminItem where
  username : String
  hashed_password : String
deriving DecidableEq, Repr

/-- The body of `POST /api/sync/all`. -/
structure Snapshot where
  operators : List OperatorItem
  logs : List LogItem
  admins : List AdminItem
deriving DecidableEq, Repr

/-- What happened to one item of the batch: its count variable was
incremented, or nothing was recorded, or its `except` branch ran (the error
is printed to the server log). -/
inductive ItemOutcome
  | counted
  | silent
  | raised
deriving DecidableEq, Repr

/-- `incoming_timestamp = datetime.fromisoformat(op_data.get('created_at',
'2000-01-01T00:00:00'))`. -/
def itemCreatedAt (it : OperatorItem) : TsStr :=
  it.created_at.getD (.valid dt2000)

/-- `datetime.fromisoformat(d['deleted_at']) if d.get('deleted_at') else None`. -/
def parseOptTs : Option TsStr → Except PyError (Option Nat)
  | some s => (fromisoformat s).map some
  | none => .ok none

/-- Keyword arguments of the `Operator(...)` call in the create branch of
`receive_all_data` (`sync.py` lines 155-166). -/
def syncOperatorCreateKwargs : List String :=
  ["operator_id", "name", "machine_no", "shift", "status", "face_image_path",
   "deleted", "deleted_at", "synced_to_cloud", "cloud_updated_at"]

/-- Keyword arguments of the `LoginLog(...)` call in `receive_all_data`
(`sync.py` lines 181-191). -/
def syncLogCreateKwargs : List String :=
  ["operator_id", "login_time", "logout_time", "shift", "date",
   "deleted", "deleted_at", "synced_to_cloud", "synced_at"]

/-- Keyword arguments of the `Admin(...)` call in `receive_all_data`. -/
def syncAdminCreateKwargs : List String :=
  ["username", "hashed_password"]

/-- The in-place mutations of an existing operator that precede the
`deleted_at` parse in the update branch of `receive_all_data` (`sync.py`
lines 121-124; the `existing.deleted` assignment in between lands on an
unmapped, transient instance attribute and never reaches the persisted
row). -/
def partialOpUpdate (it : OperatorItem) (r : OperatorRow) : OperatorRow :=
  { r with name := it.name, machine_no := it.machine_no,
           shift := it.shift, status := it.status.getD "Offline" }

/-- The complete in-place mutation of an existing operator in the update
branch of `receive_all_data` (`sync.py` lines 121-139): the field
assignments, a fresh `cloud_updated_at`, and the face-image replacement,
whose decode failure is caught by its inner `try` and only printed. -/
def fullOpUpdate (now : Nat) (it : OperatorItem) (r : OperatorRow) :
    OperatorRow :=
  let r1 := partialOpUpdate it r
  let r2 := { r1 with cloud_updated_at := some now }
  match it.face_image_b64 with
  | some b =>
    match b64decode b with
    | .ok _ =>
      { r2 with face_image_path := some (imageFilename it.operator_id now) }
    | .error _ => r2
  | none => r2

/-- One iteration of the operator loop of `receive_all_data` (`sync.py`
lines 109-170), inside its `try`.  On an existing operator the instance is
mutated field by field in source order; the `datetime.fromisoformat` on a
present `deleted_at` runs between the first four assignments and the rest
and can raise `ValueError` mid-update, in which case the fields already
assigned stay on the session object and are committed while the item is
recorded as failed.  In the create branch the `Operator(...)` constructor
receives the unmapped keywords `deleted` and `deleted_at`, so it raises
`TypeError` and the item is caught by the per-item handler.  The
`operators_count += 1` line sits after the `if`/`else`, so a skipped
existing operator is still counted. -/
def syncOneOperator (now : Nat) (σ : Store) (it : OperatorItem) :
    Store × ItemOutcome :=
  let existing? := σ.operators.find? (fun r => r.operator_id == it.operator_id)
  match fromisoformat (itemCreatedAt it) with
  | .error _ => (σ, .raised)
  | .ok incoming_timestamp =>
    match existing? with
    | some existing =>
      let existing_timestamp := existing.cloud_updated_at.getD existing.created_at
      if existing_timestamp < incoming_timestamp then
        match parseOptTs it.deleted_at with
        | .error _ =>
          let ops := updateFirst (fun r => r.operator_id == it.operator_id)
            (partialOpUpdate it) σ.operators
          ({ σ with operators := ops }, .raised)
        | .ok _ =>
          let ops := updateFirst (fun r => r.operator_id == it.operator_id)
            (fullOpUpdate now it) σ.operators
          ({ σ with operators := ops }, .counted)
      else (σ, .counted)
    | none =>
      let face_image_path : Option String :=
        match it.face_image_b64 with
        | some b =>
          match b64decode b with
          | .ok _ => some (imageFilename it.operator_id now)
          | .error _ => none
        | none => none
      match parseOptTs it.deleted_at with
      | .error _ => (σ, .raised)
      | .ok _ =>
        let row : OperatorRow :=
          { operator_id := it.operator_id, name := it.name,
            machine_no := it.machine_no, shift := it.shift,
            status := it.status.getD "Offline",
            face_image_path := face_image_path, created_at := now,
            synced_to_cloud := true, cloud_updated_at := some now }
        match declarativeInit operatorColumns syncOperatorCreateKwargs row with
        | .error _ => (σ, .raised)
        | .ok row => ({ σ with operators := σ.operators ++ [row] }, .counted)

/-- One iteration of the login-log loop of `receive_all_data` (`sync.py`
lines 173-195).  A duplicate `(operator_id, login_time)` is skipped silently;
a new log reaches the `LoginLog(...)` constructor, whose unmapped `deleted`
and `deleted_at` keywords raise `TypeError`, caught per item. -/
def syncOneLog (now : Nat) (σ : Store) (it : LogItem) : Store × ItemOutcome :=
  match fromisoformat it.login_time with
  | .error _ => (σ, .raised)
  | .ok lt =>
    match σ.login_logs.find?
        (fun r => r.operator_id == it.operator_id && r.login_time == lt) with
    | some _ => (σ, .silent)
    | none =>
      match parseOptTs it.logout_time with
      | .error _ => (σ, .raised)
      | .ok lo =>
        match parseOptTs it.deleted_at with
        | .error _ => (σ, .raised)
        | .ok _ =>
          let row : LogRow :=
            { operator_id := it.operator_id, login_time := lt,
              logout_time := lo, shift := it.shift, date := it.date,
              created_at := now, synced_to_cloud := true, synced_at := some now }
          match declarativeInit loginLogColumns syncLogCreateKwargs row with
          | .error _ => (σ, .raised)
          | .ok row => ({ σ with login_logs := σ.login_logs ++ [row] }, .counted)

/-- One iteration of the admin loop of `receive_all_data` (`sync.py`
lines 198-212): create only when the username is absent. -/
def syncOneAdmin (now : Nat) (σ : Store) (it : AdminItem) : Store × ItemOutcome :=
  match σ.admins.find? (fun r => r.username == it.username) with
  | some _ => (σ, .silent)
  | none =>
    let row : AdminRow :=
      { username := it.username, hashed_password := it.hashed_password,
        created_at := now }
    match declarativeInit adminColumns syncAdminCreateKwargs row with
    | .error _ => (σ, .raised)
    | .ok row => ({ σ with admins := σ.admins ++ [row] }, .counted)

/-- Folding one of the three loops over its items, tracking how many items
were counted and how many hit their `except` branch. -/
structure BatchResult where
  store : Store
  counted : Nat
  raised : Nat
deriving DecidableEq, Repr

/-- Run the per-item step over the batch, in order. -/
def processItems (f : Store → α → Store × ItemOutcome) :
    Store → List α → BatchResult
  | σ, [] => ⟨σ, 0, 0⟩
  | σ, it :: rest =>
    let step := f σ it
    let r := processItems f step.1 rest
    { r with
      counted := (if step.2 = .counted then 1 else 0) + r.counted,
      raised := (if step.2 = .raised then 1 else 0) + r.raised }

/-- The JSON body answered by `POST /api/sync/all` (besides the constant
`message`): the three per-kind counters.  There is no error field. -/
structure SyncResponse where
  operators_synced : Nat
  logs_synced : Nat
  admins_synced : Nat
deriving DecidableEq, Repr

/-- Outcome of one `POST /api/sync/all` call: the committed store, the
response, and the number of `"Error syncing ..."` lines printed to the
server log (they never reach the response). -/
structure ImportResult where
  store : Store
  response : SyncResponse
  errorsPrinted : Nat
deriving DecidableEq, Repr

/-- `receive_all_data` (`sync.py` lines 98-221): operators, then logs, then
admins, each item in its own `try`; `db.commit()` at the end is always
reached. -/
def receive_all_data (now : Nat) (σ : Store) (data : Snapshot) : ImportResult :=
  let rOps := processItems (syncOneOperator now) σ data.operators
  let rLogs := processItems (syncOneLog now) rOps.store data.logs
  let rAdm := processItems (syncOneAdmin now) rLogs.store data.admins
  { store := rAdm.store,
    response :=
      { operators_synced := rOps.counted, logs_synced := rLogs.counted,
        admins_synced := rAdm.counted },
    errorsPrinted := rOps.raised + rLogs.raised + rAdm.raised }

/-- A serialized operator of the `GET /api/sync/all` response.  The dict
literal in the source also tries to emit `deleted` and `deleted_at`, but
reading those attributes raises before the dict is completed, so no value for
them can ever be produced. -/
structure OperatorWire where
  operator_id : String
  name : String
  machine_no : String
  shift : Option String
  status : String
  face_image_b64 : Option String
  created_at : Nat
  cloud_updated_at : Option Nat
deriving DecidableEq, Repr

/-- A serialized login log of the `GET /api/sync/all` response; as above,
the `deleted` lookup raises before the dict is completed. -/
structure LogWire where
  operator_id : String
  login_time : Nat
  logout_time : Option Nat
  shift : String
  date : String
  created_at : Nat
deriving DecidableEq, Repr

/-- A serialized admin of the `GET /api/sync/all` response. -/
structure AdminWire where
  username : String
  hashed_password : String
  created_at : Nat
deriving DecidableEq, Repr

/-- The `GET /api/sync/all` response body. -/
structure ExportResult where
  operators : List OperatorWire
  logs : List LogWire
  admins : List AdminWire
  sync_timestamp : Nat
deriving DecidableEq, Repr

/-- Serializing one operator in `get_all_data_since` (`sync.py` lines 35-56):
the face image is read and encoded inside its own `try` (a failure is only
printed), then the response dict is built; its `"deleted": op.deleted` entry
reads an attribute that `models.Operator` does not map, so the lookup raises
`AttributeError` outside any handler. -/
def serializeOperator (fs : String → Option String) (op : OperatorRow) :
    Except PyError OperatorWire :=
  let face_image_b64 : Option String :=
    match op.face_image_path with
    | some p => fs p
    | none => none
  match attributeGet operatorColumns "deleted" with
  | .error e => .error e
  | .ok _ =>
    match attributeGet operatorColumns "deleted_at" with
    | .error e => .error e
    | .ok _ =>
      .ok { operator_id := op.operator_id, name := op.name,
            machine_no := op.machine_no, shift := op.shift,
            status := op.status, face_image_b64 := face_image_b64,
            created_at := op.created_at,
            cloud_updated_at := op.cloud_updated_at }

/-- Serializing one login log in `get_all_data_since` (`sync.py`
lines 64-74); the `log.deleted` lookup raises likewise. -/
def serializeLog (log : LogRow) : Except PyError LogWire :=
  match attributeGet loginLogColumns "deleted" with
  | .error e => .error e
  | .ok _ =>
    match attributeGet loginLogColumns "deleted_at" with
    | .error e => .error e
    | .ok _ =>
      .ok { operator_id := log.operator_id, login_time := log.login_time,
            logout_time := log.logout_time, shift := log.shift,
            date := log.date, created_at := log.created_at }

/-- Serializing one admin (`sync.py` lines 82-88); every attribute read is
mapped, so this never raises. -/
def serializeAdmin (a : AdminRow) : AdminWire :=
  { username := a.username, hashed_password := a.hashed_password,
    created_at := a.created_at }

/-- Serialize a list of operators, stopping at the first raised exception. -/
def serializeOperators (fs : String → Option String) :
    List OperatorRow → Except PyError (List OperatorWire)
  | [] => .ok []
  | op :: rest =>
    match serializeOperator fs op with
    | .error e => .error e
    | .ok w =>
      match serializeOperators fs rest with
      | .error e => .error e
      | .ok ws => .ok (w :: ws)

/-- Serialize a list of login logs, stopping at the first raised exception. -/
def serializeLogs : List LogRow → Except PyError (List LogWire)
  | [] => .ok []
  | log :: rest =>
    match serializeLog log with
    | .error e => .error e
    | .ok w =>
      match serializeLogs rest with
      | .error e => .error e
      | .ok ws => .ok (w :: ws)

/-- `get_all_data_since` (`sync.py` lines 18-95), the `GET /api/sync/all`
handler.  `since` falls back to `datetime(2000, 1, 1)` when unparsable; each
kind is filtered by `created_at > since_dt`.  `fs` is the uploads directory:
`os.path.exists` and the read of an image file.  An `Except.error` is an
unhandled exception, answered as HTTP 500. -/
def get_all_data_since (fs : String → Option String) (now : Nat) (σ : Store)
    (since : TsStr) : Except PyError ExportResult :=
  let since_dt : Nat :=
    match fromisoformat since with
    | .ok t => t
    | .error _ => dt2000
  match serializeOperators fs (σ.operators.filter (fun r => since_dt < r.created_at)) with
  | .error e => .error e
  | .ok operators_data =>
    match serializeLogs (σ.login_logs.filter (fun r => since_dt < r.created_at)) with
    | .error e => .error e
    | .ok logs_data =>
      let admins_data :=
        (σ.admins.filter (fun r => since_dt < r.created_at)).map serializeAdmin
      .ok { operators := operators_data, logs := logs_data,
            admins := admins_data, sync_timestamp := now }

/-! ### MQTT client (`mqtt_client.py`) -/

/-- The mutable fields of `MQTTClient` that the claims are about. -/
structure MQTTState where
  connected : Bool
  connection_attempts : Nat
deriving DecidableEq, Repr

/-- `self.max_reconnect_attempts = 5`. -/
def max_reconnect_attempts : Nat := 5

/-- `self.reconnect_delay = 5` seconds. -/
def reconnect_delay : Nat := 5

/-- The reconnection loop of `MQTTClient._reconnect` (`mqtt_client.py`
lines 92-113).  `oracle k` abstracts the broker: whether `self.connected`
(set by the `_on_connect` callback, or untouched when `client.reconnect()`
raised) is observed true after attempt number `k`.  The second component is
the total seconds slept: `time.sleep(1)` per attempt plus `time.sleep(5)`
after each failed one.  The loop stops as soon as the broker answers or the
attempt counter reaches `max_reconnect_attempts`; note that the counter is an
instance field that only a successful `_on_connect` resets. -/
def reconnectAux (oracle : Nat → Bool) (st : MQTTState) (slept : Nat) :
    MQTTState × Nat :=
  if h : st.connection_attempts < max_reconnect_attempts ∧ st.connected = false
  then
    let attempts := st.connection_attempts + 1
    if oracle attempts then (⟨true, attempts⟩, slept + 1)
    else reconnectAux oracle ⟨false, attempts⟩ (slept + 1 + reconnect_delay)
  else (st, slept)
termination_by max_reconnect_attempts - st.connection_attempts
decreasing_by
  simp only [max_reconnect_attempts] at *
  omega

/-- `MQTTClient._reconnect`: run the loop, return the final state, the total
seconds slept and the final `self.connected` (the return value). -/
def mqttReconnect (oracle : Nat → Bool) (st : MQTTState) :
    MQTTState × Nat × Bool :=
  let r := reconnectAux oracle st 0
  (r.1, r.2, r.1.connected)

/-- The wire payload built by the publish methods. -/
structure MQTTMessage where
  action : String
  operator_id : String
  machine_no : String
  timestamp : Nat
deriving DecidableEq, Repr

/-- `settings.mqtt_topic_prefix`. -/
def mqtt_topic_prefix : String := "factory/machine"

/-- Outcome of one `publish_unlock_signal` / `publish_lock_signal` call. -/
structure PublishCall where
  ok : Bool
  state : MQTTState
  slept : Nat
  sent : Option (String × MQTTMessage)
deriving DecidableEq, Repr

/-- Shared body of the two publish methods (`mqtt_client.py` lines 180-232
and 234-284): when not connected, first `_reconnect()`; if that fails return
`False`; otherwise publish to `f"{prefix}/{machine_no}/unlock"` (both actions
use the same topic) and return whether the broker accepted the send
(`result.rc == MQTT_ERR_SUCCESS`, modelled by `brokerAck`; an exception while
publishing is caught and also yields `False`). -/
def publishSignal (action : String) (oracle : Nat → Bool) (brokerAck : Bool)
    (st : MQTTState) (now : Nat) (machine_no operator_id : String) :
    PublishCall :=
  let topic := mqtt_topic_prefix ++ "/" ++ machine_no ++ "/unlock"
  let message : MQTTMessage :=
    { action := action, operator_id := operator_id, machine_no := machine_no,
      timestamp := now }
  if st.connected = false then
    let r := mqttReconnect oracle st
    if r.2.2 = false then
      { ok := false, state := r.1, slept := r.2.1, sent := none }
    else
      { ok := brokerAck, state := r.1, slept := r.2.1,
        sent := some (topic, message) }
  else
    { ok := brokerAck, state := st, slept := 0, sent := some (topic, message) }

/-- `MQTTClient.publish_unlock_signal`. -/
def publish_unlock_signal (oracle : Nat → Bool) (brokerAck : Bool)
    (st : MQTTState) (now : Nat) (machine_no operator_id : String) :
    PublishCall :=
  publishSignal "unlock" oracle brokerAck st now machine_no operator_id

/-- `MQTTClient.publish_lock_signal`. -/
def publish_lock_signal (oracle : Nat → Bool) (brokerAck : Bool)
    (st : MQTTState) (now : Nat) (machine_no operator_id : String) :
    PublishCall :=
  publishSignal "lock" oracle brokerAck st now machine_no operator_id

/-- `MQTTClient._on_disconnect` (`mqtt_client.py` lines 61-82): always clears
`self.connected`; `rc == 0` is an intentional disconnect; an unexpected
disconnect triggers `self._reconnect()` only when `rc == 7`.  Returns the new
state, whether `_reconnect` was invoked, and the seconds it slept. -/
def on_disconnect (oracle : Nat → Bool) (st : MQTTState) (rc : Nat) :
    MQTTState × Bool × Nat :=
  let st1 : MQTTState := { st with connected := false }
  if rc = 0 then (st1, false, 0)
  else if rc = 7 then
    let r := mqttReconnect oracle st1
    (r.1, true, r.2.1)
  else (st1, false, 0)

/-- `MQTTClient.disconnect` (`mqtt_client.py` lines 171-178): stops the
network loop, closes the session, clears `self.connected`; it never invokes
the reconnection procedure (second component). -/
def mqttDisconnect (st : MQTTState) : MQTTState × Bool :=
  ({ st with connected := false }, false)

/-! ### Operator endpoints (`routers/operators.py`) -/

/-- `DELETE /api/operators/{operator_id}` (`operators.py` lines 138-170).
404 when the operator is unknown.  Otherwise the handler assigns
`operator.deleted` and `operator.deleted_at` — unmapped, hence transient
instance attributes — and `operator.synced_to_cloud = False` (mapped,
pending), then issues a bulk `Query.update` on `LoginLog` whose keys
`deleted` and `deleted_at` name no mapped column, so the statement raises;
`db.commit()` is never reached, the request fails with HTTP 500 and the
persisted store stays the input store.  (In the unreachable success branch
only the mapped `synced_to_cloud` key could take effect.) -/
def delete_operator (σ : Store) (operator_id : String) :
    Except PyError Store :=
  match σ.operators.find? (fun r => r.operator_id == operator_id) with
  | none => .error .httpNotFound
  | some _ =>
    match queryUpdateKeysCheck loginLogColumns
        ["deleted", "deleted_at", "synced_to_cloud"] with
    | .error e => .error e
    | .ok _ =>
      let operators := updateFirst (fun r => r.operator_id == operator_id)
        (fun r => { r with synced_to_cloud := false }) σ.operators
      let logs := σ.login_logs.map fun l =>
        if l.operator_id == operator_id then { l with synced_to_cloud := false }
        else l
      .ok { σ with operators := operators, login_logs := logs }

/-- `GET /api/operators/{operator_id}` (`operators.py` lines 87-106).  The
filter `Operator.deleted == False` reads the unmapped class attribute
`Operator.deleted`, raising `AttributeError` before the query runs, for every
input.  (In the unreachable success branch the only effective criterion the
model supports is `operator_id`.) -/
def get_operator (σ : Store) (operator_id : String) :
    Except PyError OperatorRow :=
  match attributeGet operatorColumns "deleted" with
  | .error e => .error e
  | .ok _ =>
    match σ.operators.find? (fun r => r.operator_id == operator_id) with
    | none => .error .httpNotFound
    | some op => .ok op

/-- `GET /api/operators` (`operators.py` lines 74-84): the filter
`Operator.deleted == False` raises `AttributeError` likewise. -/
def get_all_operators (σ : Store) : Except PyError (List OperatorRow) :=
  match attributeGet operatorColumns "deleted" with
  | .error e => .error e
  | .ok _ => .ok σ.operators

/-- Body of `POST /api/operators/login`. -/
structure LoginLogCreate where
  operator_id : String
  shift : String
  date : String
deriving DecidableEq, Repr

/-- Outcome of a successful `operator_login`. -/
structure LoginResult where
  store : Store
  log : LogRow
  mqtt : PublishCall
deriving DecidableEq, Repr

/-- Keyword arguments of the `LoginLog(...)` call in `operator_login`
(`operators.py` lines 195-200); all four are mapped columns. -/
def operatorLoginCreateKwargs : List String :=
  ["operator_id", "login_time", "shift", "date"]

/-- `POST /api/operators/login` (`operators.py` lines 173-216): the lookup
filters on `operator_id` only (no soft-delete criterion), sets the operator's
status to `"Active"`, inserts an open login log with `login_time = now`,
commits, then attempts the MQTT unlock publish, whose failure is only
printed. -/
def operator_login (oracle : Nat → Bool) (brokerAck : Bool) (mqttSt : MQTTState)
    (now : Nat) (σ : Store) (login_data : LoginLogCreate) :
    Except PyError LoginResult :=
  match σ.operators.find? (fun r => r.operator_id == login_data.operator_id) with
  | none => .error .httpNotFound
  | some op =>
    let operators := updateFirst
      (fun r => r.operator_id == login_data.operator_id)
      (fun r => { r with status := "Active" }) σ.operators
    let row : LogRow :=
      { operator_id := login_data.operator_id, login_time := now,
        logout_time := none, shift := login_data.shift,
        date := login_data.date, created_at := now,
        synced_to_cloud := false, synced_at := none }
    match declarativeInit loginLogColumns operatorLoginCreateKwargs row with
    | .error e => .error e
    | .ok row =>
      let σ1 : Store :=
        { σ with operators := operators, login_logs := σ.login_logs ++ [row] }
      let call := publish_unlock_signal oracle brokerAck mqttSt now
        op.machine_no login_data.operator_id
      .ok { store := σ1, log := row, mqtt := call }

/-! ### Specification-side definition, for comparison with the code -/

/-- The incoming update timestamp as the specification words it: "the
incoming record's `cloudUpdatedAt` or, if absent, its creation timestamp".
Written from the spec for comparison with the code, which reads only
`op_data.get('created_at', ...)` (`itemCreatedAt`) and never the incoming
`cloud_updated_at`. -/
def specIncomingUpdateTs (it : OperatorItem) : TsStr :=
  it.cloud_updated_at.getD (itemCreatedAt it)

/-! ### Concrete fixtures for witnesses and counterexamples -/

/-- An operator row: `OP1` on machine `M1`, created at time 10, never
cloud-updated. -/
def opRowC1 : OperatorRow :=
  { name := "Alice", operator_id := "OP1", machine_no := "M1", shift := none,
    status := "Offline", face_image_path := none, created_at := 10,
    synced_to_cloud := false, cloud_updated_at := none }

/-- A store holding just `OP1`. -/
def storeC1 : Store := { operators := [opRowC1], login_logs := [], admins := [] }

/-- A snapshot item for `OP1` whose `created_at` (5) is older than the local
row's timestamp (10). -/
def opItemC1 : OperatorItem :=
  { operator_id := "OP1", name := "Alice", machine_no := "M1", shift := none,
    status := none, face_image_b64 := none, created_at := some (.valid 5),
    cloud_updated_at := none, deleted := some false, deleted_at := none }

/-- A snapshot carrying only the `OP1` item. -/
def snapC1 : Snapshot := { operators := [opItemC1], logs := [], admins := [] }

/-- An operator row for the conflict-resolution counterexample: `OP2`,
created at 10, never cloud-updated. -/
def opRowC3 : OperatorRow :=
  { name := "old", operator_id := "OP2", machine_no := "M2", shift := none,
    status := "Offline", face_image_path := none, created_at := 10,
    synced_to_cloud := false, cloud_updated_at := none }

/-- A store holding just `OP2`. -/
def storeC3 : Store := { operators := [opRowC3], login_logs := [], admins := [] }

/-- An incoming `OP2` whose `cloud_updated_at` (20) is strictly later than
the local timestamp (10) while its `created_at` (5) is older. -/
def opItemC3 : OperatorItem :=
  { operator_id := "OP2", name := "new", machine_no := "M2", shift := none,
    status := none, face_image_b64 := none, created_at := some (.valid 5),
    cloud_updated_at := some (.valid 20), deleted := some false,
    deleted_at := none }

/-- The empty store. -/
def emptyStore : Store := { operators := [], login_logs := [], admins := [] }

/-- A login-log item `(OP1, 50)` on the Day shift. -/
def logItemDay : LogItem :=
  { operator_id := "OP1", login_time := .valid 50, logout_time := none,
    shift := "Day", date := "2024-01-01", deleted := some false,
    deleted_at := none }

/-- The same `(OP1, 50)` key with a different shift. -/
def logItemNight : LogItem := { logItemDay with shift := "Night" }

/-- A snapshot with two logs sharing the `(operator_id, login_time)` key. -/
def snapC5 : Snapshot := { operators := [], logs := [logItemDay, logItemNight], admins := [] }

/-- A login log of `OP1` stored at the peer targeted by the delete. -/
def logRowC2 : LogRow :=
  { operator_id := "OP1", login_time := 30, logout_time := none,
    shift := "Day", date := "2024-01-01", created_at := 30,
    synced_to_cloud := true, synced_at := some 40 }

/-- A store holding `OP1` and one of its login logs. -/
def storeC2 : Store :=
  { operators := [opRowC1], login_logs := [logRowC2], admins := [] }

/-- A login-log item whose `login_time` does not parse. -/
def badLogItem : LogItem :=
  { operator_id := "OP9", login_time := .malformed, logout_time := none,
    shift := "Day", date := "2024-01-02", deleted := none, deleted_at := none }

/-- A snapshot whose only item fails with a malformed timestamp. -/
def snapC7bad : Snapshot := { operators := [], logs := [badLogItem], admins := [] }

/-- The empty snapshot. -/
def snapEmpty : Snapshot := { operators := [], logs := [], admins := [] }

/-- An operator item whose `created_at` does not parse. -/
def badOpItem : OperatorItem :=
  { operator_id := "OP7", name := "Bob", machine_no := "M7", shift := none,
    status := none, face_image_b64 := none, created_at := some .malformed,
    cloud_updated_at := none, deleted := none, deleted_at := none }

/-- The body of a login call for `OP1`. -/
def loginDataC10 : LoginLogCreate :=
  { operator_id := "OP1", shift := "Day", date := "2024-01-01" }

/-- A publisher that is disconnected and has not yet consumed any
reconnection attempt. -/
def stDisconnected : MQTTState := { connected := false, connection_attempts := 0 }

/-- A connected publisher. -/
def stConnected : MQTTState := { connected := true, connection_attempts := 0 }

/-! ### Helper lemmas about `updateFirst` -/

theorem updateFirst_map {α β : Type _} (g : α → β) (p : α → Bool) (f : α → α)
    (hf : ∀ a, g (f a) = g a) :
    ∀ l : List α, (updateFirst p f l).map g = l.map g := by
  intro l
  induction l with
  | nil => rfl
  | cons x xs ih =>
    simp only [updateFirst]
    split
    · simp [hf]
    · simp [ih]

theorem updateFirst_self {α : Type _} {p : α → Bool} {f : α → α} :
    ∀ {l : List α} {a : α}, l.find? p = some a → f a = a →
      updateFirst p f l = l := by
  intro l
  induction l with
  | nil => intro a h _; simp [List.find?] at h
  | cons x xs ih =>
    intro a h hfa
    rw [List.find?_cons] at h
    by_cases hp : p x = true
    · simp [hp] at h
      subst h
      simp [updateFirst, hp, hfa]
    · simp [Bool.not_eq_true] at hp
      simp [hp] at h
      simp [updateFirst, hp, ih h hfa]

theorem find?_updateFirst_same {α : Type _} {p : α → Bool} {f : α → α} :
    ∀ {l : List α} {a : α}, l.find? p = some a → p (f a) = p a →
      (updateFirst p f l).find? p = some (f a) := by
  intro l
  induction l with
  | nil => intro a h _; simp [List.find?] at h
  | cons x xs ih =>
    intro a h hfa
    rw [List.find?_cons] at h
    by_cases hp : p x = true
    · simp [hp] at h
      subst h
      simp [updateFirst, hp, List.find?_cons, hfa]
    · simp [Bool.not_eq_true] at hp
      simp [hp] at h
      simp [updateFirst, hp, List.find?_cons, ih h hfa]

theorem find?_updateFirst_ne {α : Type _} {p q : α → Bool} {f : α → α}
    (hpq : ∀ a, q a = true → p a = false) (hf : ∀ a, p (f a) = p a) :
    ∀ l : List α, (updateFirst q f l).find? p = l.find? p := by
  intro l
  induction l with
  | nil => rfl
  | cons x xs ih =>
    by_cases hq : q x = true
    · simp [updateFirst, hq, List.find?_cons, hf, hpq x hq]
    · simp [Bool.not_eq_true] at hq
      by_cases hp : p x = true
      · simp [updateFirst, hq, List.find?_cons, hp]
      · simp [Bool.not_eq_true] at hp
        simp [updateFirst, hq, List.find?_cons, hp, ih]

/-! ### Helper lemmas about `processItems` -/

theorem processItems_append {α : Type _} (f : Store → α → Store × ItemOutcome) :
    ∀ (l1 l2 : List α) (σ : Store),
      processItems f σ (l1 ++ l2) =
        ⟨(processItems f (processItems f σ l1).store l2).store,
         (processItems f σ l1).counted +
           (processItems f (processItems f σ l1).store l2).counted,
         (processItems f σ l1).raised +
           (processItems f (processItems f σ l1).store l2).raised⟩ := by
  intro l1
  induction l1 with
  | nil => intro l2 σ; simp [processItems]
  | cons x xs ih =>
    intro l2 σ
    simp only [List.cons_append, processItems, List.append_eq, ih]
    simp only [BatchResult.mk.injEq, true_and]
    constructor <;> omega

theorem processItems_pres {α γ : Type _} (g : Store → γ)
    (f : Store → α → Store × ItemOutcome)
    (h : ∀ σ it, g ((f σ it).1) = g σ) :
    ∀ (l : List α) (σ : Store), g (processItems f σ l).store = g σ := by
  intro l
  induction l with
  | nil => intro σ; rfl
  | cons x xs ih => intro σ; simp only [processItems]; rw [ih, h]

theorem processItems_store_const {α : Type _}
    (f : Store → α → Store × ItemOutcome)
    (h : ∀ σ it, (f σ it).1 = σ) :
    ∀ (l : List α) (σ : Store), (processItems f σ l).store = σ := by
  intro l
  induction l with
  | nil => intro σ; rfl
  | cons x xs ih => intro σ; simp only [processItems]; rw [h, ih]

theorem processItems_counted_zero {α : Type _}
    (f : Store → α → Store × ItemOutcome)
    (h : ∀ σ it, (f σ it).2 ≠ .counted) :
    ∀ (l : List α) (σ : Store), (processItems f σ l).counted = 0 := by
  intro l
  induction l with
  | nil => intro σ; rfl
  | cons x xs ih =>
    intro σ
    simp only [processItems]
    rw [if_neg (h σ x), ih]

/-! ### The declarative constructors at the four call sites -/

theorem syncOpInit_raises {α : Type _} (row : α) :
    declarativeInit operatorColumns syncOperatorCreateKwargs row =
      .error (.typeError "deleted") := rfl

theorem syncLogInit_raises {α : Type _} (row : α) :
    declarativeInit loginLogColumns syncLogCreateKwargs row =
      .error (.typeError "deleted") := rfl

theorem syncAdminInit_ok {α : Type _} (row : α) :
    declarativeInit adminColumns syncAdminCreateKwargs row = .ok row := rfl

theorem loginLogInit_ok {α : Type _} (row : α) :
    declarativeInit loginLogColumns operatorLoginCreateKwargs row = .ok row := rfl

/-! ### Characterization of the per-item sync steps -/

/-- The store after an in-place rewrite of the first operator row with the
given id. -/
def opUpdatedStore (σ : Store) (x : String) (f : OperatorRow → OperatorRow) :
    Store :=
  { σ with operators := updateFirst (fun r => r.operator_id == x) f σ.operators }

/-- The admin row appended by the create branch of the admin loop. -/
def adminRowOf (now : Nat) (it : AdminItem) : AdminRow :=
  { username := it.username, hashed_password := it.hashed_password,
    created_at := now }

theorem partialOpUpdate_id (it : OperatorItem) (r : OperatorRow) :
    (partialOpUpdate it r).operator_id = r.operator_id := rfl

theorem fullOpUpdate_id (now : Nat) (it : OperatorItem) (r : OperatorRow) :
    (fullOpUpdate now it r).operator_id = r.operator_id := by
  unfold fullOpUpdate
  cases h : it.face_image_b64 with
  | none => rfl
  | some b =>
    dsimp only
    cases hb : b64decode b <;> rfl

theorem syncOneLog_or (now : Nat) (σ : Store) (it : LogItem) :
    syncOneLog now σ it = (σ, .raised) ∨ syncOneLog now σ it = (σ, .silent) := by
  unfold syncOneLog
  cases hlt : fromisoformat it.login_time with
  | error e => exact .inl rfl
  | ok lt =>
    dsimp only
    cases hfind : σ.login_logs.find?
        (fun r => r.operator_id == it.operator_id && r.login_time == lt) with
    | some a => exact .inr rfl
    | none =>
      dsimp only
      cases hlo : parseOptTs it.logout_time with
      | error e => exact .inl rfl
      | ok lo =>
        dsimp only
        cases hda : parseOptTs it.deleted_at with
        | error e => exact .inl rfl
        | ok v => exact .inl rfl

theorem syncOneLog_store (now : Nat) (σ : Store) (it : LogItem) :
    (syncOneLog now σ it).1 = σ := by
  rcases syncOneLog_or now σ it with h | h <;> rw [h]

theorem syncOneLog_not_counted (now : Nat) (σ : Store) (it : LogItem) :
    (syncOneLog now σ it).2 ≠ .counted := by
  rcases syncOneLog_or now σ it with h | h <;> rw [h] <;> simp

theorem syncOneOperator_malformed (now : Nat) (σ : Store) (it : OperatorItem)
    (e : PyError) (h : fromisoformat (itemCreatedAt it) = .error e) :
    syncOneOperator now σ it = (σ, .raised) := by
  unfold syncOneOperator
  rw [h]

theorem syncOneOperator_create (now : Nat) (σ : Store) (it : OperatorItem)
    (h : σ.operators.find? (fun r => r.operator_id == it.operator_id) = none) :
    syncOneOperator now σ it = (σ, .raised) := by
  unfold syncOneOperator
  rw [h]
  cases hts : fromisoformat (itemCreatedAt it) with
  | error e => rfl
  | ok t =>
    dsimp only
    cases hda : parseOptTs it.deleted_at with
    | error e => rfl
    | ok v => rfl

theorem syncOneOperator_skip (now : Nat) (σ : Store) (it : OperatorItem)
    (ex : OperatorRow) (t : Nat)
    (hex : σ.operators.find? (fun r => r.operator_id == it.operator_id) = some ex)
    (ht : fromisoformat (itemCreatedAt it) = .ok t)
    (hle : ¬ ex.cloud_updated_at.getD ex.created_at < t) :
    syncOneOperator now σ it = (σ, .counted) := by
  unfold syncOneOperator
  rw [hex, ht]
  simp only [if_neg hle]

theorem syncOneOperator_update_raised (now : Nat) (σ : Store)
    (it : OperatorItem) (ex : OperatorRow) (t : Nat) (e : PyError)
    (hex : σ.operators.find? (fun r => r.operator_id == it.operator_id) = some ex)
    (ht : fromisoformat (itemCreatedAt it) = .ok t)
    (hlt : ex.cloud_updated_at.getD ex.created_at < t)
    (hda : parseOptTs it.deleted_at = .error e) :
    syncOneOperator now σ it =
      (opUpdatedStore σ it.operator_id (partialOpUpdate it), .raised) := by
  unfold syncOneOperator
  rw [hex, ht]
  dsimp only
  rw [if_pos hlt, hda]
  rfl

theorem syncOneOperator_update_ok (now : Nat) (σ : Store)
    (it : OperatorItem) (ex : OperatorRow) (t : Nat) (v : Option Nat)
    (hex : σ.operators.find? (fun r => r.operator_id == it.operator_id) = some ex)
    (ht : fromisoformat (itemCreatedAt it) = .ok t)
    (hlt : ex.cloud_updated_at.getD ex.created_at < t)
    (hda : parseOptTs it.deleted_at = .ok v) :
    syncOneOperator now σ it =
      (opUpdatedStore σ it.operator_id (fullOpUpdate now it), .counted) := by
  unfold syncOneOperator
  rw [hex, ht]
  dsimp only
  rw [if_pos hlt, hda]
  rfl

theorem syncOneAdmin_some (now : Nat) (σ : Store) (it : AdminItem) (a : AdminRow)
    (h : σ.admins.find? (fun r => r.username == it.username) = some a) :
    syncOneAdmin now σ it = (σ, .silent) := by
  unfold syncOneAdmin
  rw [h]

theorem syncOneAdmin_none (now : Nat) (σ : Store) (it : AdminItem)
    (h : σ.admins.find? (fun r => r.username == it.username) = none) :
    syncOneAdmin now σ it =
      ({ σ with admins := σ.admins ++ [adminRowOf now it] }, .counted) := by
  unfold syncOneAdmin
  rw [h]
  all_goals rfl

theorem syncOneOperator_shape (now : Nat) (σ : Store) (it : OperatorItem) :
    (syncOneOperator now σ it).1 = σ ∨
      ∃ f : OperatorRow → OperatorRow,
        (∀ r, (f r).operator_id = r.operator_id) ∧
        (syncOneOperator now σ it).1 = opUpdatedStore σ it.operator_id f := by
  cases hts : fromisoformat (itemCreatedAt it) with
  | error e => rw [syncOneOperator_malformed now σ it e hts]; exact .inl rfl
  | ok t =>
    cases hex : σ.operators.find? (fun r => r.operator_id == it.operator_id) with
    | none => rw [syncOneOperator_create now σ it hex]; exact .inl rfl
    | some ex =>
      by_cases hlt : ex.cloud_updated_at.getD ex.created_at < t
      · cases hda : parseOptTs it.deleted_at with
        | error e =>
          rw [syncOneOperator_update_raised now σ it ex t e hex hts hlt hda]
          exact .inr ⟨partialOpUpdate it, fun r => partialOpUpdate_id it r, rfl⟩
        | ok v =>
          rw [syncOneOperator_update_ok now σ it ex t v hex hts hlt hda]
          exact .inr ⟨fullOpUpdate now it, fun r => fullOpUpdate_id now it r, rfl⟩
      · rw [syncOneOperator_skip now σ it ex t hex hts hlt]; exact .inl rfl

theorem syncOneOperator_logs_admins (now : Nat) (σ : Store) (it : OperatorItem) :
    (syncOneOperator now σ it).1.login_logs = σ.login_logs ∧
      (syncOneOperator now σ it).1.admins = σ.admins := by
  rcases syncOneOperator_shape now σ it with h | ⟨f, hf, h⟩ <;> rw [h] <;>
    exact ⟨rfl, rfl⟩

theorem syncOneOperator_ids (now : Nat) (σ : Store) (it : OperatorItem) :
    (syncOneOperator now σ it).1.operators.map (fun r => r.operator_id) =
      σ.operators.map (fun r => r.operator_id) := by
  rcases syncOneOperator_shape now σ it with h | ⟨f, hf, h⟩ <;> rw [h]
  exact updateFirst_map _ _ _ hf σ.operators

theorem syncOneAdmin_ops_logs (now : Nat) (σ : Store) (it : AdminItem) :
    (syncOneAdmin now σ it).1.operators = σ.operators ∧
      (syncOneAdmin now σ it).1.login_logs = σ.login_logs := by
  cases h : σ.admins.find? (fun r => r.username == it.username) with
  | some a => rw [syncOneAdmin_some now σ it a h]; exact ⟨rfl, rfl⟩
  | none => rw [syncOneAdmin_none now σ it h]; exact ⟨rfl, rfl⟩

/-! ### Phase-level corollaries -/

theorem receive_store_phases (now : Nat) (σ : Store) (data : Snapshot) :
    (receive_all_data now σ data).store =
      (processItems (syncOneAdmin now)
        (processItems (syncOneLog now)
          (processItems (syncOneOperator now) σ data.operators).store
          data.logs).store
        data.admins).store := rfl

theorem opsPhase_logs (now : Nat) (l : List OperatorItem) (σ : Store) :
    (processItems (syncOneOperator now) σ l).store.login_logs = σ.login_logs :=
  processItems_pres (fun s => s.login_logs) _
    (fun σ it => (syncOneOperator_logs_admins now σ it).1) l σ

theorem opsPhase_admins (now : Nat) (l : List OperatorItem) (σ : Store) :
    (processItems (syncOneOperator now) σ l).store.admins = σ.admins :=
  processItems_pres (fun s => s.admins) _
    (fun σ it => (syncOneOperator_logs_admins now σ it).2) l σ

theorem opsPhase_ids (now : Nat) (l : List OperatorItem) (σ : Store) :
    (processItems (syncOneOperator now) σ l).store.operators.map
        (fun r => r.operator_id) =
      σ.operators.map (fun r => r.operator_id) :=
  processItems_pres (fun s => s.operators.map (fun r => r.operator_id)) _
    (fun σ it => syncOneOperator_ids now σ it) l σ

theorem logsPhase_store (now : Nat) (l : List LogItem) (σ : Store) :
    (processItems (syncOneLog now) σ l).store = σ :=
  processItems_store_const _ (fun σ it => syncOneLog_store now σ it) l σ

theorem logsPhase_counted (now : Nat) (l : List LogItem) (σ : Store) :
    (processItems (syncOneLog now) σ l).counted = 0 :=
  processItems_counted_zero _ (fun σ it => syncOneLog_not_counted now σ it) l σ

theorem adminsPhase_ops (now : Nat) (l : List AdminItem) (σ : Store) :
    (processItems (syncOneAdmin now) σ l).store.operators = σ.operators :=
  processItems_pres (fun s => s.operators) _
    (fun σ it => (syncOneAdmin_ops_logs now σ it).1) l σ

theorem adminsPhase_logs (now : Nat) (l : List AdminItem) (σ : Store) :
    (processItems (syncOneAdmin now) σ l).store.login_logs = σ.login_logs :=
  processItems_pres (fun s => s.login_logs) _
    (fun σ it => (syncOneAdmin_ops_logs now σ it).2) l σ

theorem syncOneAdmin_extends (now : Nat) (σ : Store) (it : AdminItem) :
    ∃ extra, (syncOneAdmin now σ it).1.admins = σ.admins ++ extra := by
  cases h : σ.admins.find? (fun r => r.username == it.username) with
  | some a =>
    rw [syncOneAdmin_some now σ it a h]
    exact ⟨[], by simp⟩
  | none =>
    rw [syncOneAdmin_none now σ it h]
    exact ⟨[adminRowOf now it], rfl⟩

theorem adminsPhase_extends (now : Nat) (l : List AdminItem) (σ : Store) :
    ∃ extra, (processItems (syncOneAdmin now) σ l).store.admins =
      σ.admins ++ extra := by
  induction l generalizing σ with
  | nil => exact ⟨[], by simp [processItems]⟩
  | cons x xs ih =>
    obtain ⟨e1, h1⟩ := syncOneAdmin_extends now σ x
    obtain ⟨e2, h2⟩ := ih (syncOneAdmin now σ x).1
    refine ⟨e1 ++ e2, ?_⟩
    simp only [processItems]
    rw [h2, h1, List.append_assoc]

theorem receive_logs_unchanged (now : Nat) (σ : Store) (data : Snapshot) :
    (receive_all_data now σ data).store.login_logs = σ.login_logs := by
  rw [receive_store_phases, adminsPhase_logs, logsPhase_store, opsPhase_logs]

/-! ### Claim theorems -/

/-- C9: every snapshot item reaching a create branch of `receive_all_data`
calls the `Operator` or `LoginLog` constructor with the keyword arguments
`deleted` and `deleted_at`, which the ORM models do not map, so the
construction raises `TypeError`, the per-item handler catches it, and
an import never inserts a new operator row or a new log row: the log table is
unchanged, the operator rows keep exactly their ids (only in-place updates of
existing operators), and only the admin table can gain rows. -/
theorem c9_create_branches_never_insert (now : Nat) (σ : Store)
    (data : Snapshot) :
    (∀ row : OperatorRow,
        declarativeInit operatorColumns syncOperatorCreateKwargs row =
          .error (.typeError "deleted")) ∧
    (∀ row : LogRow,
        declarativeInit loginLogColumns syncLogCreateKwargs row =
          .error (.typeError "deleted")) ∧
    (receive_all_data now σ data).store.login_logs = σ.login_logs ∧
    (receive_all_data now σ data).store.operators.map (fun r => r.operator_id) =
      σ.operators.map (fun r => r.operator_id) ∧
    ∃ extra, (receive_all_data now σ data).store.admins = σ.admins ++ extra := by
  refine ⟨fun row => syncOpInit_raises row, fun row => syncLogInit_raises row,
    ?_, ?_, ?_⟩
  · rw [receive_store_phases, adminsPhase_logs, logsPhase_store, opsPhase_logs]
  · rw [receive_store_phases]
    have h1 := adminsPhase_ops now data.admins
      ((processItems (syncOneLog now)
        (processItems (syncOneOperator now) σ data.operators).store
        data.logs).store)
    rw [h1, logsPhase_store, opsPhase_ids]
  · rw [receive_store_phases, logsPhase_store]
    obtain ⟨extra, hx⟩ := adminsPhase_extends now data.admins
      (processItems (syncOneOperator now) σ data.operators).store
    rw [hx, opsPhase_admins]
    exact ⟨extra, rfl⟩

/-- The bulk `Query.update` issued by `delete_operator` names the columns
`deleted` and `deleted_at`, which `models.LoginLog` does not map. -/
theorem deleteKeysCheck_raises :
    queryUpdateKeysCheck loginLogColumns
      ["deleted", "deleted_at", "synced_to_cloud"] =
      .error (.unconsumedColumn "deleted") := rfl

/-- C2 (code bug): `DELETE /api/operators/{operator_id}` never soft-deletes.
For every store and operator id the handler raises — 404 when the operator is
unknown, otherwise the bulk log update on the unmapped columns `deleted` /
`deleted_at` raises before `db.commit()`, so nothing is persisted.  At the
concrete store holding `OP1` and one of its logs, the delete raises the
unconsumed-column error instead of stamping soft-delete flags. -/
theorem c2_delete_operator_always_raises :
    (∀ (σ : Store) (oid : String), ∃ e, delete_operator σ oid = .error e) ∧
    delete_operator storeC2 "OP1" = .error (.unconsumedColumn "deleted") := by
  constructor
  · intro σ oid
    unfold delete_operator
    cases h : σ.operators.find? (fun r => r.operator_id == oid) with
    | none => exact ⟨.httpNotFound, rfl⟩
    | some op =>
      dsimp only
      rw [deleteKeysCheck_raises]
      exact ⟨.unconsumedColumn "deleted", rfl⟩
  · unfold delete_operator
    rw [show storeC2.operators.find? (fun r => r.operator_id == "OP1") =
        some opRowC1 from rfl]
    rfl

/-- C5 (code bug): the duplicate test is exact `(operator_id, login_time)`
membership, but no incoming log is ever inserted — the `LoginLog(...)`
constructor raises on the unmapped `deleted` keyword.  In particular, for two
incoming logs with the same key and different shifts, neither is applied:
the store is unchanged, `logs_synced` is 0 and both items hit the per-item
handler. -/
theorem c5_first_log_not_inserted :
    (∀ (now : Nat) (σ : Store) (data : Snapshot),
        (receive_all_data now σ data).store.login_logs = σ.login_logs) ∧
    receive_all_data 100 emptyStore snapC5 =
      { store := emptyStore,
        response := { operators_synced := 0, logs_synced := 0, admins_synced := 0 },
        errorsPrinted := 2 } := by
  constructor
  · intro now σ data
    rw [receive_store_phases, adminsPhase_logs, logsPhase_store, opsPhase_logs]
  · decide

/-- C8 (code bug): `get_all_data_since` cannot serialize a single operator or
login log: the dict literal reads the unmapped `deleted` attribute, raising
`AttributeError` for every row, so the handler fails with HTTP 500 whenever
any operator (or log) passes the `created_at > since` filter — here on the
store holding one operator created at 10 with watermark 0. -/
theorem c8_export_raises :
    (∀ (fs : String → Option String) (op : OperatorRow),
        serializeOperator fs op = .error (.attributeError "deleted")) ∧
    (∀ log : LogRow, serializeLog log = .error (.attributeError "deleted")) ∧
    get_all_data_since (fun _ => none) 100 storeC1 (.valid 0) =
      .error (.attributeError "deleted") := by
  exact ⟨fun fs op => rfl, fun log => rfl, rfl⟩

/-- C3 (counterexample): the spec-side incoming update timestamp of
`opItemC3` (its `cloudUpdatedAt`, 20) is strictly later than the existing
record's timestamp (10), so the claim demands an update; the code compares
only the incoming `created_at` (5) and leaves the store unchanged, merely
counting the item. -/
theorem c3_counterexample :
    fromisoformat (specIncomingUpdateTs opItemC3) = .ok 20 ∧
    opRowC3.cloud_updated_at.getD opRowC3.created_at = 10 ∧
    storeC3.operators.find? (fun r => r.operator_id == opItemC3.operator_id) =
      some opRowC3 ∧
    syncOneOperator 100 storeC3 opItemC3 = (storeC3, .counted) :=
  ⟨rfl, rfl, rfl, rfl⟩

/-- C3 (amended): for an existing operator, the decision compares the
incoming `created_at` (default `2000-01-01` when absent) — never the
incoming `cloudUpdatedAt` — against the existing `cloud_updated_at`
falling back to `created_at`; the record is rewritten iff the incoming
`created_at` is strictly later, equal timestamps leave the store untouched
(the item is still counted), and the decision is a pure function of its
inputs. -/
theorem c3_amended (now : Nat) (σ : Store) (it : OperatorItem)
    (ex : OperatorRow) (t : Nat) (v : Option Nat)
    (hex : σ.operators.find? (fun r => r.operator_id == it.operator_id) = some ex)
    (ht : fromisoformat (itemCreatedAt it) = .ok t)
    (hda : parseOptTs it.deleted_at = .ok v) :
    syncOneOperator now σ it =
      if ex.cloud_updated_at.getD ex.created_at < t
      then (opUpdatedStore σ it.operator_id (fullOpUpdate now it), .counted)
      else (σ, .counted) := by
  by_cases hlt : ex.cloud_updated_at.getD ex.created_at < t
  · rw [if_pos hlt]
    exact syncOneOperator_update_ok now σ it ex t v hex ht hlt hda
  · rw [if_neg hlt]
    exact syncOneOperator_skip now σ it ex t hex ht hlt

/-- C3 (witness): the amended rule evaluated on the concrete store and item
of the counterexample. -/
theorem c3_amended_witness :
    syncOneOperator 100 storeC3 opItemC3 =
      if opRowC3.cloud_updated_at.getD opRowC3.created_at < 5
      then (opUpdatedStore storeC3 opItemC3.operator_id (fullOpUpdate 100 opItemC3),
            ItemOutcome.counted)
      else (storeC3, ItemOutcome.counted) :=
  c3_amended 100 storeC3 opItemC3 opRowC3 5 none rfl rfl rfl

/-- C6 (counterexample): with the publisher connected, an unexpected
broker-initiated closure with return code 3 (server unavailable) moves the
state to disconnected but does not trigger the reconnection procedure,
contradicting the claim that every unexpected closure does. -/
theorem c6_counterexample :
    (on_disconnect (fun _ => false) stConnected 3).1.connected = false ∧
    (on_disconnect (fun _ => false) stConnected 3).2.1 = false := by
  constructor <;> rfl

/-- C6 (amended): `_on_disconnect` always clears the connected flag, but it
invokes the reconnection procedure exactly when the return code is 7
(connection lost / network error); every other closure — intentional
(`rc = 0`) or unexpected — leaves the publisher disconnected without
reconnecting, and an intentional `disconnect()` clears the flag and never
reconnects. -/
theorem c6_amended (oracle : Nat → Bool) (st : MQTTState) (rc : Nat) :
    ((on_disconnect oracle st rc).2.1 = true ↔ rc = 7) ∧
    (rc = 7 ∨ (on_disconnect oracle st rc).1 = { st with connected := false }) ∧
    (rc = 7 ∨ (on_disconnect oracle st rc).2.2 = 0) ∧
    mqttDisconnect st = ({ st with connected := false }, false) := by
  unfold on_disconnect mqttDisconnect
  by_cases h0 : rc = 0
  · subst h0
    refine ⟨by simp, .inr rfl, .inr rfl, rfl⟩
  · by_cases h7 : rc = 7
    · subst h7
      refine ⟨by simp, .inl rfl, .inl rfl, rfl⟩
    · rw [if_neg h0, if_neg h7]
      refine ⟨by simp [h7], .inr rfl, .inr rfl, rfl⟩

/-- C7 (counterexample): a snapshot whose one log item fails with a
malformed timestamp and the empty snapshot produce the same response on the
same store, even though the first run prints one per-item error and the
second none — the response carries no error list recording failed items
and their reasons. -/
theorem c7_counterexample :
    (receive_all_data 100 emptyStore snapC7bad).response =
      (receive_all_data 100 emptyStore snapEmpty).response ∧
    (receive_all_data 100 emptyStore snapC7bad).errorsPrinted = 1 ∧
    (receive_all_data 100 emptyStore snapEmpty).errorsPrinted = 0 := by
  decide

/-- C7 (amended): per-item failures are isolated — removing an operator item
whose `created_at` is malformed changes neither the final store nor any
per-kind count of the import, only the count of error lines printed to the
server log (by one); the errors are logged, not reported in the response. -/
theorem c7_amended (now : Nat) (σ : Store) (pre post : List OperatorItem)
    (logs : List LogItem) (admins : List AdminItem) (it : OperatorItem)
    (hbad : itemCreatedAt it = .malformed) :
    receive_all_data now σ
        { operators := pre ++ it :: post, logs := logs, admins := admins } =
      { receive_all_data now σ
          { operators := pre ++ post, logs := logs, admins := admins } with
        errorsPrinted :=
          (receive_all_data now σ
            { operators := pre ++ post, logs := logs, admins := admins }).errorsPrinted + 1 } := by
  have hstep : ∀ ρ : Store, syncOneOperator now ρ it = (ρ, .raised) := by
    intro ρ
    exact syncOneOperator_malformed now ρ it .valueError (by rw [hbad]; rfl)
  have hops : processItems (syncOneOperator now) σ (pre ++ it :: post) =
      { processItems (syncOneOperator now) σ (pre ++ post) with
        raised := (processItems (syncOneOperator now) σ (pre ++ post)).raised + 1 } := by
    rw [processItems_append, processItems_append]
    simp only [processItems, hstep]
    simp only [BatchResult.mk.injEq, true_and]
    constructor
    · simp
    · simp
      omega
  unfold receive_all_data
  rw [hops]
  dsimp only
  simp only [ImportResult.mk.injEq, true_and]
  omega

/-- C7 (witness): the amended isolation statement applied to the empty store
with a single malformed operator item. -/
theorem c7_amended_witness :
    receive_all_data 100 emptyStore
        { operators := [] ++ badOpItem :: [], logs := [], admins := [] } =
      { receive_all_data 100 emptyStore
          { operators := [] ++ [], logs := [], admins := [] } with
        errorsPrinted :=
          (receive_all_data 100 emptyStore
            { operators := [] ++ [], logs := [], admins := [] }).errorsPrinted + 1 } :=
  c7_amended 100 emptyStore [] [] [] [] badOpItem (by decide)

/-- C10 (counterexample): `OP1` is present in the store, yet the read
endpoint `GET /api/operators/{operator_id}` does not return it (nor any
operator): building the `Operator.deleted == False` criterion raises
`AttributeError`, so the endpoint cannot be said to merely exclude deleted
operators. -/
theorem c10_counterexample :
    storeC1.operators.find? (fun r => r.operator_id == "OP1") = some opRowC1 ∧
    get_operator storeC1 "OP1" = .error (.attributeError "deleted") := by
  constructor <;> rfl

/-- C10 (amended): `operator_login` looks the operator up by `operator_id`
alone — no soft-delete filter exists or could exist — and for every operator
present it succeeds: the operator's status becomes `"Active"`, an open log
with `login_time = now` is appended, and an unlock publish for the
operator's machine is attempted; the read endpoints, by contrast, reference
the unmapped `deleted` column and raise `AttributeError` on every request. -/
theorem c10_amended (oracle : Nat → Bool) (brokerAck : Bool)
    (mqttSt : MQTTState) (now : Nat) (σ : Store) (d : LoginLogCreate)
    (op : OperatorRow)
    (hop : σ.operators.find? (fun r => r.operator_id == d.operator_id) = some op) :
    (∃ res : LoginResult,
        operator_login oracle brokerAck mqttSt now σ d = .ok res ∧
        res.log.login_time = now ∧
        res.log.logout_time = none ∧
        res.log.operator_id = d.operator_id ∧
        res.store.login_logs = σ.login_logs ++ [res.log] ∧
        res.store.operators.find? (fun r => r.operator_id == d.operator_id) =
          some { op with status := "Active" } ∧
        res.mqtt = publish_unlock_signal oracle brokerAck mqttSt now
          op.machine_no d.operator_id) ∧
    (∀ (σ' : Store) (x : String),
        get_operator σ' x = .error (.attributeError "deleted")) ∧
    (∀ σ' : Store, get_all_operators σ' = .error (.attributeError "deleted")) := by
  refine ⟨?_, fun σ' x => rfl, fun σ' => rfl⟩
  unfold operator_login
  rw [hop]
  dsimp only
  rw [loginLogInit_ok]
  refine ⟨_, rfl, rfl, rfl, rfl, rfl, ?_, rfl⟩
  exact find?_updateFirst_same hop rfl

theorem reconnectAux_unreachable (oracle : Nat → Bool)
    (h : ∀ k, oracle k = false) :
    ∀ (n : Nat) (st : MQTTState) (slept : Nat),
      max_reconnect_attempts - st.connection_attempts = n →
      st.connected = false →
      reconnectAux oracle st slept =
        (⟨false, max st.connection_attempts max_reconnect_attempts⟩,
         slept + n * (1 + reconnect_delay)) := by
  intro n
  induction n with
  | zero =>
    intro st slept hn hc
    obtain ⟨c, a⟩ := st
    dsimp only at hc hn
    subst hc
    have ha : max_reconnect_attempts ≤ a := by omega
    have hcon : ¬ (a < max_reconnect_attempts ∧ (false : Bool) = false) :=
      fun hx => absurd hx.1 (Nat.not_lt.mpr ha)
    unfold reconnectAux
    rw [dif_neg hcon]
    rw [Nat.max_eq_left ha]
    simp
  | succ n ih =>
    intro st slept hn hc
    obtain ⟨c, a⟩ := st
    dsimp only at hc hn
    subst hc
    have ha : a < max_reconnect_attempts := by omega
    unfold reconnectAux
    rw [dif_pos ⟨ha, rfl⟩]
    simp only [h (a + 1), Bool.false_eq_true, if_false]
    rw [ih ⟨false, a + 1⟩ (slept + 1 + reconnect_delay) (by dsimp only; omega) rfl]
    have hmax : max (a + 1) max_reconnect_attempts = max a max_reconnect_attempts := by
      rw [Nat.max_eq_right ha, Nat.max_eq_right (Nat.le_of_lt ha)]
    rw [hmax]
    simp only [Prod.mk.injEq, true_and]
    ring

theorem mqttReconnect_unreachable (oracle : Nat → Bool)
    (h : ∀ k, oracle k = false) (st : MQTTState) (hc : st.connected = false) :
    mqttReconnect oracle st =
      (⟨false, max st.connection_attempts max_reconnect_attempts⟩,
       (max_reconnect_attempts - st.connection_attempts) * (1 + reconnect_delay),
       false) := by
  unfold mqttReconnect
  rw [reconnectAux_unreachable oracle h
    (max_reconnect_attempts - st.connection_attempts) st 0 rfl hc]
  simp

theorem publishSignal_unreachable (action : String) (oracle : Nat → Bool)
    (brokerAck : Bool) (st : MQTTState) (now : Nat)
    (machine_no operator_id : String)
    (hun : ∀ k, oracle k = false) (hc : st.connected = false) :
    publishSignal action oracle brokerAck st now machine_no operator_id =
      { ok := false,
        state := ⟨false, max st.connection_attempts max_reconnect_attempts⟩,
        slept := (max_reconnect_attempts - st.connection_attempts) *
          (1 + reconnect_delay),
        sent := none } := by
  unfold publishSignal
  rw [if_pos hc, mqttReconnect_unreachable oracle hun st hc]
  rfl

/-- C4: when the publisher is not connected and the broker stays unreachable,
both publish methods run the bounded reconnection procedure and then return
`false` without raising: nothing is sent, the attempt counter grows by at
most `max_reconnect_attempts = 5`, and the time slept is bounded by
5 attempts × (1 s settle + 5 s delay). -/
theorem c4_publish_bounded (oracle : Nat → Bool) (brokerAck : Bool)
    (st : MQTTState) (now : Nat) (machine_no operator_id : String)
    (hun : ∀ k, oracle k = false) (hc : st.connected = false) :
    (publish_unlock_signal oracle brokerAck st now machine_no operator_id).ok
        = false ∧
    (publish_lock_signal oracle brokerAck st now machine_no operator_id).ok
        = false ∧
    (publish_unlock_signal oracle brokerAck st now machine_no operator_id).sent
        = none ∧
    (publish_lock_signal oracle brokerAck st now machine_no operator_id).sent
        = none ∧
    (publish_unlock_signal oracle brokerAck st now machine_no
        operator_id).state.connection_attempts - st.connection_attempts ≤
      max_reconnect_attempts ∧
    (publish_unlock_signal oracle brokerAck st now machine_no
        operator_id).slept ≤ max_reconnect_attempts * (1 + reconnect_delay) ∧
    (publish_lock_signal oracle brokerAck st now machine_no
        operator_id).slept ≤ max_reconnect_attempts * (1 + reconnect_delay) := by
  have hu := publishSignal_unreachable "unlock" oracle brokerAck st now
    machine_no operator_id hun hc
  have hl := publishSignal_unreachable "lock" oracle brokerAck st now
    machine_no operator_id hun hc
  unfold publish_unlock_signal publish_lock_signal
  rw [hu, hl]
  have hmax : max st.connection_attempts max_reconnect_attempts -
      st.connection_attempts ≤ max_reconnect_attempts := by
    rcases Nat.le_total st.connection_attempts max_reconnect_attempts with h | h
    · rw [Nat.max_eq_right h]; omega
    · rw [Nat.max_eq_left h]; omega
  have hslept : (max_reconnect_attempts - st.connection_attempts) *
      (1 + reconnect_delay) ≤ max_reconnect_attempts * (1 + reconnect_delay) :=
    Nat.mul_le_mul_right _ (Nat.sub_le _ _)
  exact ⟨rfl, rfl, rfl, rfl, hmax, hslept, hslept⟩

/-- C4 (witness): the bound evaluated at a disconnected publisher facing a
broker that never answers. -/
theorem c4_publish_bounded_witness :
    (publish_unlock_signal (fun _ => false) true stDisconnected 9 "M1" "OP1").ok
        = false ∧
    (publish_lock_signal (fun _ => false) true stDisconnected 9 "M1" "OP1").ok
        = false ∧
    (publish_unlock_signal (fun _ => false) true stDisconnected 9 "M1" "OP1").sent
        = none ∧
    (publish_lock_signal (fun _ => false) true stDisconnected 9 "M1" "OP1").sent
        = none ∧
    (publish_unlock_signal (fun _ => false) true stDisconnected 9 "M1"
        "OP1").state.connection_attempts - stDisconnected.connection_attempts ≤
      max_reconnect_attempts ∧
    (publish_unlock_signal (fun _ => false) true stDisconnected 9 "M1"
        "OP1").slept ≤ max_reconnect_attempts * (1 + reconnect_delay) ∧
    (publish_lock_signal (fun _ => false) true stDisconnected 9 "M1"
        "OP1").slept ≤ max_reconnect_attempts * (1 + reconnect_delay) :=
  c4_publish_bounded (fun _ => false) true stDisconnected 9 "M1" "OP1"
    (fun _ => rfl) rfl

/-- C10 (witness): the login behaviour evaluated on the concrete store
holding `OP1`. -/
theorem c10_amended_witness :
    (∃ res : LoginResult,
        operator_login (fun _ => true) true stConnected 77 storeC1 loginDataC10 =
          .ok res ∧
        res.log.login_time = 77 ∧
        res.log.logout_time = none ∧
        res.log.operator_id = loginDataC10.operator_id ∧
        res.store.login_logs = storeC1.login_logs ++ [res.log] ∧
        res.store.operators.find?
            (fun r => r.operator_id == loginDataC10.operator_id) =
          some { opRowC1 with status := "Active" } ∧
        res.mqtt = publish_unlock_signal (fun _ => true) true stConnected 77
          opRowC1.machine_no loginDataC10.operator_id) ∧
    (∀ (σ' : Store) (x : String),
        get_operator σ' x = .error (.attributeError "deleted")) ∧
    (∀ σ' : Store, get_all_operators σ' = .error (.attributeError "deleted")) :=
  c10_amended (fun _ => true) true stConnected 77 storeC1 loginDataC10 opRowC1
    (by decide)

/-! ### Idempotence machinery for the operator phase -/

theorem partialOpUpdate_idem (it : OperatorItem) (r : OperatorRow) :
    partialOpUpdate it (partialOpUpdate it r) = partialOpUpdate it r := rfl

theorem partialOpUpdate_cloud (it : OperatorItem) (r : OperatorRow) :
    (partialOpUpdate it r).cloud_updated_at = r.cloud_updated_at := rfl

theorem partialOpUpdate_created (it : OperatorItem) (r : OperatorRow) :
    (partialOpUpdate it r).created_at = r.created_at := rfl

theorem fullOpUpdate_cloud (now : Nat) (it : OperatorItem) (r : OperatorRow) :
    (fullOpUpdate now it r).cloud_updated_at = some now := by
  unfold fullOpUpdate
  cases h : it.face_image_b64 with
  | none => rfl
  | some b =>
    dsimp only
    cases hb : b64decode b <;> rfl

theorem partialOpUpdate_pred (it : OperatorItem) (s : String) (a : OperatorRow) :
    ((partialOpUpdate it a).operator_id == s) = (a.operator_id == s) := by
  rw [partialOpUpdate_id]

theorem fullOpUpdate_pred (now : Nat) (it : OperatorItem) (s : String)
    (a : OperatorRow) :
    ((fullOpUpdate now it a).operator_id == s) = (a.operator_id == s) := by
  rw [fullOpUpdate_id]

theorem syncOneOperator_find_untouched (now : Nat) (σ : Store)
    (it : OperatorItem) (x : String) (hne : it.operator_id ≠ x) :
    (syncOneOperator now σ it).1.operators.find? (fun r => r.operator_id == x) =
      σ.operators.find? (fun r => r.operator_id == x) := by
  rcases syncOneOperator_shape now σ it with h | ⟨f, hf, h⟩
  · rw [h]
  · rw [h]
    unfold opUpdatedStore
    dsimp only
    refine find?_updateFirst_ne ?_ ?_ σ.operators
    · intro a ha
      rw [beq_iff_eq] at ha
      rw [ha]
      exact beq_eq_false_iff_ne.mpr hne
    · intro a
      rw [hf]

theorem opsPhase_find_untouched (now : Nat) (l : List OperatorItem) (x : String)
    (hx : ∀ it ∈ l, it.operator_id ≠ x) :
    ∀ σ : Store,
      (processItems (syncOneOperator now) σ l).store.operators.find?
          (fun r => r.operator_id == x) =
        σ.operators.find? (fun r => r.operator_id == x) := by
  induction l with
  | nil => intro σ; rfl
  | cons it rest ih =>
    intro σ
    simp only [processItems]
    rw [ih (fun y hy => hx y (List.mem_cons_of_mem it hy))]
    exact syncOneOperator_find_untouched now σ it x
      (hx it (List.mem_cons_self it rest))

theorem opsPhase_find_none (now : Nat) (l : List OperatorItem) (x : String)
    (σ : Store)
    (h : σ.operators.find? (fun r => r.operator_id == x) = none) :
    (processItems (syncOneOperator now) σ l).store.operators.find?
        (fun r => r.operator_id == x) = none := by
  rw [List.find?_eq_none] at h ⊢
  intro r hr
  have hmem : r.operator_id ∈
      (processItems (syncOneOperator now) σ l).store.operators.map
        (fun r => r.operator_id) :=
    List.mem_map_of_mem _ hr
  rw [opsPhase_ids] at hmem
  obtain ⟨r0, hr0, hid⟩ := List.mem_map.mp hmem
  have h0 := h r0 hr0
  simp only [beq_iff_eq] at h0 ⊢
  rw [← hid]
  exact h0

theorem processItems_cons_assemble (now1 now2 : Nat) (σ σa σ2 : Store)
    (it : OperatorItem) (rest : List OperatorItem) (o1 : ItemOutcome)
    (h1 : syncOneOperator now1 σ it = (σa, o1))
    (h2 : syncOneOperator now2 σ2 it = (σ2, o1))
    (hrest : processItems (syncOneOperator now2) σ2 rest =
      ⟨σ2, (processItems (syncOneOperator now1) σa rest).counted,
           (processItems (syncOneOperator now1) σa rest).raised⟩) :
    processItems (syncOneOperator now2) σ2 (it :: rest) =
      ⟨σ2, (processItems (syncOneOperator now1) σ (it :: rest)).counted,
           (processItems (syncOneOperator now1) σ (it :: rest)).raised⟩ := by
  simp only [processItems, h1, h2, hrest]

theorem opsPhase_idem (now1 now2 : Nat) :
    ∀ (l : List OperatorItem) (σ σ2 : Store),
      (l.map (fun it => it.operator_id)).Nodup →
      (∀ it ∈ l, ∀ t, fromisoformat (itemCreatedAt it) = .ok t → t ≤ now1) →
      σ2.operators = (processItems (syncOneOperator now1) σ l).store.operators →
      processItems (syncOneOperator now2) σ2 l =
        ⟨σ2, (processItems (syncOneOperator now1) σ l).counted,
             (processItems (syncOneOperator now1) σ l).raised⟩ := by
  intro l
  induction l with
  | nil => intro σ σ2 _ _ _; rfl
  | cons it rest ih =>
    intro σ σ2 hnd hts hσ2
    obtain ⟨hnotin, hndrest⟩ := List.nodup_cons.mp hnd
    have hxrest : ∀ y ∈ rest, y.operator_id ≠ it.operator_id := by
      intro y hy heq
      have hmem : y.operator_id ∈ rest.map (fun z => z.operator_id) :=
        List.mem_map_of_mem _ hy
      rw [heq] at hmem
      exact hnotin hmem
    have htsit := hts it (List.mem_cons_self it rest)
    have htsrest : ∀ y ∈ rest, ∀ t, fromisoformat (itemCreatedAt y) = .ok t →
        t ≤ now1 :=
      fun y hy => hts y (List.mem_cons_of_mem it hy)
    cases hts1 : fromisoformat (itemCreatedAt it) with
    | error e =>
      have h1 := syncOneOperator_malformed now1 σ it e hts1
      have h2 := syncOneOperator_malformed now2 σ2 it e hts1
      refine processItems_cons_assemble now1 now2 σ σ σ2 it rest .raised h1 h2 ?_
      refine ih σ σ2 hndrest htsrest ?_
      rw [hσ2]
      simp only [processItems, h1]
    | ok t =>
      cases hex : σ.operators.find? (fun r => r.operator_id == it.operator_id) with
      | none =>
        have h1 := syncOneOperator_create now1 σ it hex
        have hrest_store : σ2.operators =
            (processItems (syncOneOperator now1) σ rest).store.operators := by
          rw [hσ2]
          simp only [processItems, h1]
        have hnone2 : σ2.operators.find?
            (fun r => r.operator_id == it.operator_id) = none := by
          rw [hrest_store]
          exact opsPhase_find_none now1 rest it.operator_id σ hex
        have h2 := syncOneOperator_create now2 σ2 it hnone2
        refine processItems_cons_assemble now1 now2 σ σ σ2 it rest .raised h1 h2 ?_
        exact ih σ σ2 hndrest htsrest hrest_store
      | some ex =>
        by_cases hlt : ex.cloud_updated_at.getD ex.created_at < t
        · cases hda : parseOptTs it.deleted_at with
          | error e =>
            have h1 := syncOneOperator_update_raised now1 σ it ex t e hex hts1
              hlt hda
            have hfindσa : (opUpdatedStore σ it.operator_id
                  (partialOpUpdate it)).operators.find?
                  (fun r => r.operator_id == it.operator_id) =
                some (partialOpUpdate it ex) :=
              find?_updateFirst_same hex (partialOpUpdate_pred it _ ex)
            have hrest_store : σ2.operators =
                (processItems (syncOneOperator now1)
                  (opUpdatedStore σ it.operator_id (partialOpUpdate it))
                  rest).store.operators := by
              rw [hσ2]
              simp only [processItems, h1]
            have hfind2 : σ2.operators.find?
                (fun r => r.operator_id == it.operator_id) =
                some (partialOpUpdate it ex) := by
              rw [hrest_store,
                opsPhase_find_untouched now1 rest it.operator_id hxrest,
                hfindσa]
            have h2 := syncOneOperator_update_raised now2 σ2 it
              (partialOpUpdate it ex) t e hfind2
              hts1 (by rw [partialOpUpdate_cloud, partialOpUpdate_created]; exact hlt)
              hda
            have hfix : opUpdatedStore σ2 it.operator_id (partialOpUpdate it) = σ2 := by
              unfold opUpdatedStore
              rw [updateFirst_self hfind2 (partialOpUpdate_idem it ex)]
            rw [hfix] at h2
            refine processItems_cons_assemble now1 now2 σ
              (opUpdatedStore σ it.operator_id (partialOpUpdate it)) σ2 it rest
              .raised h1 h2 ?_
            exact ih (opUpdatedStore σ it.operator_id (partialOpUpdate it)) σ2
              hndrest htsrest hrest_store
          | ok v =>
            have h1 := syncOneOperator_update_ok now1 σ it ex t v hex hts1 hlt hda
            have hfindσa : (opUpdatedStore σ it.operator_id
                  (fullOpUpdate now1 it)).operators.find?
                  (fun r => r.operator_id == it.operator_id) =
                some (fullOpUpdate now1 it ex) :=
              find?_updateFirst_same hex (fullOpUpdate_pred now1 it _ ex)
            have hrest_store : σ2.operators =
                (processItems (syncOneOperator now1)
                  (opUpdatedStore σ it.operator_id (fullOpUpdate now1 it))
                  rest).store.operators := by
              rw [hσ2]
              simp only [processItems, h1]
            have hfind2 : σ2.operators.find?
                (fun r => r.operator_id == it.operator_id) =
                some (fullOpUpdate now1 it ex) := by
              rw [hrest_store,
                opsPhase_find_untouched now1 rest it.operator_id hxrest,
                hfindσa]
            have hnlt : ¬ (fullOpUpdate now1 it ex).cloud_updated_at.getD
                (fullOpUpdate now1 it ex).created_at < t := by
              rw [fullOpUpdate_cloud]
              exact Nat.not_lt.mpr (htsit t hts1)
            have h2 := syncOneOperator_skip now2 σ2 it (fullOpUpdate now1 it ex)
              t hfind2 hts1 hnlt
            refine processItems_cons_assemble now1 now2 σ
              (opUpdatedStore σ it.operator_id (fullOpUpdate now1 it)) σ2 it rest
              .counted h1 h2 ?_
            exact ih (opUpdatedStore σ it.operator_id (fullOpUpdate now1 it)) σ2
              hndrest htsrest hrest_store
        · have h1 := syncOneOperator_skip now1 σ it ex t hex hts1 hlt
          have hrest_store : σ2.operators =
              (processItems (syncOneOperator now1) σ rest).store.operators := by
            rw [hσ2]
            simp only [processItems, h1]
          have hfind2 : σ2.operators.find?
              (fun r => r.operator_id == it.operator_id) = some ex := by
            rw [hrest_store,
              opsPhase_find_untouched now1 rest it.operator_id hxrest, hex]
          have h2 := syncOneOperator_skip now2 σ2 it ex t hfind2 hts1 hlt
          refine processItems_cons_assemble now1 now2 σ σ σ2 it rest .counted h1 h2 ?_
          exact ih σ σ2 hndrest htsrest hrest_store

theorem adminsPhase_mem_mono (now : Nat) (l : List AdminItem) (σ : Store)
    (a : AdminRow) (h : a ∈ σ.admins) :
    a ∈ (processItems (syncOneAdmin now) σ l).store.admins := by
  obtain ⟨extra, hx⟩ := adminsPhase_extends now l σ
  rw [hx]
  exact List.mem_append_left extra h

theorem adminsPhase_all_present (now : Nat) :
    ∀ (l : List AdminItem) (σ : Store) (it : AdminItem), it ∈ l →
      ∃ a ∈ (processItems (syncOneAdmin now) σ l).store.admins,
        a.username = it.username := by
  intro l
  induction l with
  | nil => intro σ it hit; cases hit
  | cons x xs ih =>
    intro σ it hit
    rcases List.mem_cons.mp hit with hx | hxs
    · subst hx
      simp only [processItems]
      cases hf : σ.admins.find? (fun r => r.username == it.username) with
      | some a0 =>
        rw [syncOneAdmin_some now σ it a0 hf]
        refine ⟨a0, adminsPhase_mem_mono now xs σ a0
          (List.mem_of_find?_eq_some hf), ?_⟩
        have := List.find?_some hf
        rwa [beq_iff_eq] at this
      | none =>
        rw [syncOneAdmin_none now σ it hf]
        refine ⟨adminRowOf now it, ?_, rfl⟩
        refine adminsPhase_mem_mono now xs _ _ ?_
        exact List.mem_append_right _ (List.mem_singleton.mpr rfl)
    · simp only [processItems]
      exact ih (syncOneAdmin now σ x).1 it hxs

theorem adminsPhase_noop (now : Nat) :
    ∀ (l : List AdminItem) (σ : Store),
      (∀ it ∈ l, ∃ a ∈ σ.admins, a.username = it.username) →
      processItems (syncOneAdmin now) σ l = ⟨σ, 0, 0⟩ := by
  intro l
  induction l with
  | nil => intro σ _; rfl
  | cons x xs ih =>
    intro σ hall
    obtain ⟨a, ha, hu⟩ := hall x (List.mem_cons_self x xs)
    have hsome : (σ.admins.find? (fun r => r.username == x.username)).isSome := by
      rw [List.find?_isSome]
      exact ⟨a, ha, by rw [beq_iff_eq]; exact hu⟩
    cases hf : σ.admins.find? (fun r => r.username == x.username) with
    | none => rw [hf] at hsome; cases hsome
    | some a0 =>
      have hstep := syncOneAdmin_some now σ x a0 hf
      simp only [processItems, hstep]
      rw [ih σ (fun it hit => hall it (List.mem_cons_of_mem x hit))]
      rfl

theorem receive_response_phases (now : Nat) (σ : Store) (data : Snapshot) :
    (receive_all_data now σ data).response =
      { operators_synced :=
          (processItems (syncOneOperator now) σ data.operators).counted,
        logs_synced :=
          (processItems (syncOneLog now)
            (processItems (syncOneOperator now) σ data.operators).store
            data.logs).counted,
        admins_synced :=
          (processItems (syncOneAdmin now)
            (processItems (syncOneLog now)
              (processItems (syncOneOperator now) σ data.operators).store
              data.logs).store
            data.admins).counted } := rfl

/-- C1 (counterexample): re-importing the snapshot of `OP1` into a store
already holding `OP1` leaves the state unchanged both times, yet the second
call reports `operators_synced = 1`, not zero — the counter is incremented
even for skipped existing operators. -/
theorem c1_counterexample :
    (receive_all_data 200 (receive_all_data 100 storeC1 snapC1).store
        snapC1).response.operators_synced = 1 ∧
    (receive_all_data 100 storeC1 snapC1).store = storeC1 := by
  constructor <;> rfl

/-- C1 (amended): for a snapshot whose operator items carry pairwise distinct
ids and creation timestamps no later than the first import time, a
second import of the same snapshot leaves the store exactly as the first one left
it and reports zero newly-applied logs and zero newly-applied admins — but
its `operators_synced` equals the first call's count (every locally-existing
item processed without exception is counted, skips included), which need not
be zero. -/
theorem c1_amended (now1 now2 : Nat) (σ : Store) (S : Snapshot)
    (hids : (S.operators.map (fun it => it.operator_id)).Nodup)
    (hts : ∀ it ∈ S.operators, ∀ t,
      fromisoformat (itemCreatedAt it) = .ok t → t ≤ now1) :
    (receive_all_data now2 (receive_all_data now1 σ S).store S).store =
      (receive_all_data now1 σ S).store ∧
    (receive_all_data now2 (receive_all_data now1 σ S).store S).response =
      { operators_synced := (receive_all_data now1 σ S).response.operators_synced,
        logs_synced := 0, admins_synced := 0 } := by
  have hA1id : (receive_all_data now1 σ S).store.operators =
      (processItems (syncOneOperator now1) σ S.operators).store.operators := by
    rw [receive_store_phases, adminsPhase_ops, logsPhase_store]
  have hA2 := opsPhase_idem now1 now2 S.operators σ
    (receive_all_data now1 σ S).store hids hts hA1id
  have hA2store : (processItems (syncOneOperator now2)
      (receive_all_data now1 σ S).store S.operators).store =
      (receive_all_data now1 σ S).store := by rw [hA2]
  have hpresent : ∀ it ∈ S.admins,
      ∃ a ∈ (receive_all_data now1 σ S).store.admins,
        a.username = it.username := by
    rw [receive_store_phases, logsPhase_store]
    exact adminsPhase_all_present now1 S.admins
      (processItems (syncOneOperator now1) σ S.operators).store
  have hnoop := adminsPhase_noop now2 S.admins
    (receive_all_data now1 σ S).store hpresent
  constructor
  · rw [receive_store_phases now2, hA2store, logsPhase_store, hnoop]
  · rw [receive_response_phases now2, hA2store, logsPhase_store, hnoop]
    have hA2cnt : (processItems (syncOneOperator now2)
        (receive_all_data now1 σ S).store S.operators).counted =
        (processItems (syncOneOperator now1) σ S.operators).counted := by
      rw [hA2]
    rw [hA2cnt, logsPhase_counted]
    rfl

/-- C1 (witness): the amended idempotence applied to the concrete store and
snapshot of the counterexample. -/
theorem c1_amended_witness :
    (receive_all_data 200 (receive_all_data 100 storeC1 snapC1).store
        snapC1).store = (receive_all_data 100 storeC1 snapC1).store ∧
    (receive_all_data 200 (receive_all_data 100 storeC1 snapC1).store
        snapC1).response =
      { operators_synced :=
          (receive_all_data 100 storeC1 snapC1).response.operators_synced,
        logs_synced := 0, admins_synced := 0 } := by
  refine c1_amended 100 200 storeC1 snapC1 (by decide) ?_
  intro it hit t hp
  have hit' : it ∈ [opItemC1] := hit
  rw [List.mem_singleton] at hit'
  subst hit'
  have h5 : (Except.ok (5 : Nat) : Except PyError Nat) = .ok t := hp
  injection h5 with h
  omega

end Backend
